import Mathlib

/-!
Verification of the `templ_heroicons_generator` command-line tool.

The orchestrator (`cli.py`, function `main`) is embedded as a pure function
over the results of its four pipeline stages; Python exceptions become an
explicit `PyExc` type matching the handler chain of `main`, and `sys.exit`
codes become an `Int` field of the result.  The pipeline stages themselves
(`scanner.find_used_icons`, `downloader.fetch_heroicons_list`,
`downloader.download_svgs`, `templ_builder.generate_heroicons_package`) live
in modules whose sources are not part of this repository snapshot; they are
modelled from the specification, as noted on each definition.
-/

namespace Heroicons

/-- Python values that can appear as the `code` attribute of a `SystemExit`
exception: an integer, a string, or `None` (cli.py line 227 distinguishes
exactly `isinstance(e.code, int)`). -/
inductive PyVal where
  | int (n : Int)
  | str (s : String)
  | none
deriving DecidableEq, Repr

/-- The exception classes distinguished by the handler chain of `main`
(cli.py lines 226-259): `SystemExit` (with its code), `KeyboardInterrupt`,
`requests.exceptions.RequestException`, `FileNotFoundError`, `OSError`,
`RuntimeError`, and any other `Exception`. -/
inductive PyExc where
  | systemExit (code : PyVal)
  | keyboardInterrupt
  | requestException
  | fileNotFoundError
  | osError
  | runtimeError
  | otherException
deriving DecidableEq, Repr

/-- The command-line arguments produced by `parse_args` (cli.py lines 15-94)
that influence control flow. -/
structure Args where
  input_dir : String
  output_dir : String
  force : Bool
  exclude_output : Bool
  verbose : Bool
  silent : Bool
  dry_run : Bool
  default_class : String
  cache_dir : String
deriving DecidableEq, Repr

/-- Python's `str.lower()` on the ASCII range: each character is
lowercased individually. -/
def pyLower (s : String) : String := String.mk (s.data.map Char.toLower)

/-- The conversion applied by `parse_args` to the value of the
`--exclude-output` flag (cli.py line 52):
`lambda x: str(x).lower() not in ["false", "0", "no"]`. -/
def exclude_output_value (x : String) : Bool :=
  !(["false", "0", "no"].contains (pyLower x))

/-- The argparse default for `--exclude-output` (cli.py line 53). -/
def EXCLUDE_OUTPUT_DEFAULT : Bool := true

/-- The exit code assigned by the handler chain of `main` when exception `e`
escapes the `try` block (cli.py lines 226-259): the `SystemExit` code when it
is an `int`, 130 for `KeyboardInterrupt`, and 1 otherwise. -/
def excExitCode : PyExc → Int
  | PyExc.systemExit (PyVal.int n) => n
  | PyExc.systemExit _ => 1
  | PyExc.keyboardInterrupt => 130
  | _ => 1

/-- Exception kinds handled by the five generic-failure handlers of `main`
(network, filesystem, OS, runtime, unexpected; cli.py lines 231-259). -/
def genericFailure : PyExc → Bool
  | PyExc.requestException => true
  | PyExc.fileNotFoundError => true
  | PyExc.osError => true
  | PyExc.runtimeError => true
  | PyExc.otherException => true
  | _ => false

/-- Observable outcome of one run of `main`: the code passed to `sys.exit`
in the `finally` block, whether `generate_heroicons_package` was called,
the content it returned (if it returned), the output-file content after the
run, and which of the notable messages were printed. -/
structure MainResult where
  exitCode : Int
  generationRun : Bool
  generatedContent : Option String
  fsAfter : Option String
  skippedGenMsg : Bool
  fetchWarnPrinted : Bool
  downloadWarnPrinted : Bool
  cancelMsgPrinted : Bool
deriving DecidableEq, Repr

/-- Result of a run that ends with exception `e` escaping to the handler
chain of `main`.  `fs` is the output-file content at that point, `fw` and
`dw` record whether the fetch warning (cli.py lines 120-127) and the
download-errors warning (cli.py lines 159-163) had already been printed,
and `genRun` whether `generate_heroicons_package` had been entered. -/
def errResult (e : PyExc) (fs : Option String) (fw dw genRun : Bool) : MainResult :=
  { exitCode := excExitCode e
    generationRun := genRun
    generatedContent := Option.none
    fsAfter := fs
    skippedGenMsg := false
    fetchWarnPrinted := fw
    downloadWarnPrinted := dw
    cancelMsgPrinted := decide (e = PyExc.keyboardInterrupt) }

/-- The fatal condition of cli.py lines 159-169: download errors occurred,
no icon was successfully processed, icons were identified by the scan, and
this is not a dry run.  In that case `exit_code` is set to 1 and package
generation is skipped (cli.py lines 221-224). -/
def fatalNoIcons (a : Args) (icons : List String)
    (data : List (String × String)) (errs : Nat) : Bool :=
  decide (0 < errs) && data.isEmpty && !icons.isEmpty && !a.dry_run

/-- The tail of `main` after the three data-producing stages returned
normally (cli.py lines 159-224): the download-errors warning, the fatal
check, and either package generation or the skip message.  `vl` is
`valid_icons_list`, `icons` is `icons_to_generate`, `dl` is
`(valid_icons_data, download_errors)`, `genRes`/`genFs` the result and
file state of the `generate_heroicons_package` call, `fs0` the output-file
content on entry. -/
def runStages (a : Args) (vl : List String) (icons : List String)
    (dl : List (String × String) × Nat) (genRes : Except PyExc String)
    (genFs : Option String) (fs0 : Option String) : MainResult :=
  let fw := vl.isEmpty && a.verbose
  let dw := decide (0 < dl.2)
  if fatalNoIcons a icons dl.1 dl.2 then
    { exitCode := 1
      generationRun := false
      generatedContent := Option.none
      fsAfter := fs0
      skippedGenMsg := true
      fetchWarnPrinted := fw
      downloadWarnPrinted := dw
      cancelMsgPrinted := false }
  else
    match genRes with
    | Except.error e => errResult e genFs fw dw true
    | Except.ok content =>
      { exitCode := 0
        generationRun := true
        generatedContent := Option.some content
        fsAfter := genFs
        skippedGenMsg := false
        fetchWarnPrinted := fw
        downloadWarnPrinted := dw
        cancelMsgPrinted := false }

/-- The results the four pipeline calls of `main` would produce, each as an
`Except` so that a raised exception at any stage can be represented.
`genFs` is the output-file content after the generation call. -/
structure StageResults where
  fetchRes : Except PyExc (List String)
  scanRes : Except PyExc (List String)
  downloadRes : Except PyExc (List (String × String) × Nat)
  genRes : Except PyExc String
  genFs : Option String

/-- Shallow embedding of `main` (cli.py lines 97-266): runs the pipeline
stages in order, maps an exception escaping any stage through the handler
chain, applies the fatal-condition check, and reports the `sys.exit` code
together with the observable effects. -/
def runMain (a : Args) (s : StageResults) (fs0 : Option String) : MainResult :=
  match s.fetchRes with
  | Except.error e => errResult e fs0 false false false
  | Except.ok vl =>
    match s.scanRes with
    | Except.error e => errResult e fs0 (vl.isEmpty && a.verbose) false false
    | Except.ok icons =>
      match s.downloadRes with
      | Except.error e => errResult e fs0 (vl.isEmpty && a.verbose) false false
      | Except.ok dl => runStages a vl icons dl s.genRes s.genFs fs0

/-- Exception `e` escapes some pipeline stage that the control flow of
`main` actually reaches: the fetch, the scan, the download, or (when the
fatal condition did not fire) the generation call. -/
def stageRaises (a : Args) (s : StageResults) (e : PyExc) : Prop :=
  s.fetchRes = Except.error e ∨
  (∃ vl, s.fetchRes = Except.ok vl ∧ s.scanRes = Except.error e) ∨
  (∃ vl icons, s.fetchRes = Except.ok vl ∧ s.scanRes = Except.ok icons ∧
    s.downloadRes = Except.error e) ∨
  (∃ vl icons dl, s.fetchRes = Except.ok vl ∧ s.scanRes = Except.ok icons ∧
    s.downloadRes = Except.ok dl ∧ fatalNoIcons a icons dl.1 dl.2 = false ∧
    s.genRes = Except.error e)

/-- Modelled from the spec: `downloader.fetch_heroicons_list` (module not in
the snapshot; spec section 4.1).  Attempts the network fetch of the icon
manifest (`listFetch`); on failure falls back to the cached copy
(`listCache`); if neither is available returns the empty list, which is
non-fatal. -/
def fetch_heroicons_list (listFetch listCache : Option (List String)) : List String :=
  match listFetch with
  | Option.some l => l
  | Option.none =>
    match listCache with
    | Option.some l => l
    | Option.none => []

/-- Lexicographic comparison of character lists by code point. -/
def charListLe : List Char → List Char → Bool
  | [], _ => true
  | _ :: _, [] => false
  | c :: cs, d :: ds =>
    if c.toNat < d.toNat then true
    else if d.toNat < c.toNat then false
    else charListLe cs ds

/-- Lexicographic string comparison by code point (the order Python's
`sorted` applies to icon names). -/
def strLe (s t : String) : Bool := charListLe s.data t.data

/-- Insertion of `x` into `l` before the first element not below it,
according to `le`. -/
def insertLe {α : Type} (le : α → α → Bool) (x : α) : List α → List α
  | [] => [x]
  | y :: ys => if le x y then x :: y :: ys else y :: insertLe le x ys

/-- Insertion sort by `le`. -/
def sortLe {α : Type} (le : α → α → Bool) : List α → List α
  | [] => []
  | x :: xs => insertLe le x (sortLe le xs)

/-- Modelled from the spec: `scanner.find_used_icons` (module not in the
snapshot; spec section 4.2).  Directory walking and the lexical extraction
of icon-name tokens are abstracted as `fileTokens`, the list of tokens each
scanned file yields.  If `valid_icons_list` is non-empty, tokens not present
in it are dropped; if it is empty all tokens pass through.  The result is
deduplicated and sorted for determinism. -/
def find_used_icons (fileTokens : List (List String))
    (valid_icons_list : List String) : List String :=
  let found := fileTokens.flatten
  let filtered :=
    if valid_icons_list.isEmpty then found
    else found.filter (fun t => valid_icons_list.contains t)
  sortLe strLe filtered.dedup

/-- Modelled from the spec: `downloader.download_svgs` (module not in the
snapshot; spec section 4.3).  `svgFor` models the per-icon cache/network
outcome: `some svg` when the cache hit or the fetch succeeded and the body
validated, `none` on failure.  Icons are processed sequentially; a success
is added to the result, a failure increments the error count and the icon
is omitted. -/
def download_svgs (icons : List String) (svgFor : String → Option String) :
    List (String × String) × Nat :=
  match icons with
  | [] => ([], 0)
  | i :: rest =>
    let r := download_svgs rest svgFor
    match svgFor i with
    | Option.some svg => ((i, svg) :: r.1, r.2)
    | Option.none => (r.1, r.2 + 1)

/-- Base name of a path: the last `/`-separated component
(`os.path.basename` of the output directory, from which the Go package
name is derived). -/
def basename (p : String) : String := (p.splitOn "/").getLastD ""

/-- Modelled from the spec: the text of one generated component (spec
section 4.4: one component per icon, with a class override falling back to
`default_class`). -/
def componentDecl (name svg default_class : String) : String :=
  "templ " ++ name ++ "(class string /* " ++ default_class ++ " */) " ++ svg

/-- Icons sorted by name, the order in which the generator emits
components (spec section 4.4). -/
def sortIcons (icons : List (String × String)) : List (String × String) :=
  sortLe (fun x y => strLe x.1 y.1) icons

/-- Names of the components the generator emits, in emission order. -/
def componentNames (icons : List (String × String)) : List String :=
  (sortIcons icons).map (fun ic => ic.1)

/-- Modelled from the spec: the full generated file content — a package
declaration derived from the output directory's base name followed by one
component per icon, sorted by name. -/
def packageContent (pkg : String) (icons : List (String × String))
    (default_class : String) : String :=
  "package " ++ pkg ++ "\n" ++
    String.join ((sortIcons icons).map (fun ic => componentDecl ic.1 ic.2 default_class))

/-- Structural validity of a generated file: it opens with a package
declaration (the shape the spec calls a minimal but structurally valid
package). -/
def validPackageText (s : String) : Bool := "package ".data.isPrefixOf s.data

/-- Result of a `generate_heroicons_package` call: the returned text or the
raised exception, and the output-file content after the call. -/
structure GenOutcome where
  result : Except PyExc String
  fsAfter : Option String

/-- Modelled from the spec: `templ_builder.generate_heroicons_package`
(module not in the snapshot; spec section 4.4).  `existing` is the current
content of the target output file (`none` when absent).  Dry run writes
nothing; an existing byte-identical file is left untouched regardless of
`force`; an existing differing file fails with a file-exists condition (an
`OSError`) unless `force`; otherwise the content is written. -/
def generate_heroicons_package (output_dir : String)
    (icons : List (String × String)) (existing : Option String)
    (force dry_run : Bool) (default_class : String) : GenOutcome :=
  let content := packageContent (basename output_dir) icons default_class
  if dry_run then { result := Except.ok content, fsAfter := existing }
  else
    match existing with
    | Option.none => { result := Except.ok content, fsAfter := Option.some content }
    | Option.some c =>
      if c = content then { result := Except.ok content, fsAfter := Option.some c }
      else if force then { result := Except.ok content, fsAfter := Option.some content }
      else { result := Except.error PyExc.osError, fsAfter := Option.some c }

/-- One run's environment: the network/cache outcomes for the icon list,
the tokens each scanned file yields, the per-icon download outcome, and
the pre-existing output file. -/
structure World where
  listFetch : Option (List String)
  listCache : Option (List String)
  fileTokens : List (List String)
  svgFor : String → Option String
  existingOutput : Option String

/-- The icon set the scan identifies in world `w` (after validation against
the fetched list). -/
def scannedIcons (w : World) : List String :=
  find_used_icons w.fileTokens (fetch_heroicons_list w.listFetch w.listCache)

/-- The stage results of a run in which no stage raises: each stage is the
modelled component applied to the previous stage's output. -/
def stagesOf (w : World) (a : Args) : StageResults :=
  let vl := fetch_heroicons_list w.listFetch w.listCache
  let icons := find_used_icons w.fileTokens vl
  let dl := download_svgs icons w.svgFor
  let g := generate_heroicons_package a.output_dir dl.1 w.existingOutput
    a.force a.dry_run a.default_class
  { fetchRes := Except.ok vl
    scanRes := Except.ok icons
    downloadRes := Except.ok dl
    genRes := g.result
    genFs := g.fsAfter }

/-- A full exception-free run of `main` in world `w`. -/
def runWorld (w : World) (a : Args) : MainResult :=
  runMain a (stagesOf w a) w.existingOutput

/-! ## Helper lemmas -/

theorem insertLe_perm {α : Type} (le : α → α → Bool) (x : α) (l : List α) :
    (insertLe le x l).Perm (x :: l) := by
  induction l with
  | nil => exact List.Perm.refl _
  | cons y ys ih =>
    simp only [insertLe]
    split
    · exact List.Perm.refl _
    · exact (ih.cons y).trans (List.Perm.swap x y ys)

theorem sortLe_perm {α : Type} (le : α → α → Bool) (l : List α) :
    (sortLe le l).Perm l := by
  induction l with
  | nil => exact List.Perm.refl _
  | cons x xs ih => exact (insertLe_perm le x (sortLe le xs)).trans (ih.cons x)

theorem packageContent_nil (pkg dc : String) :
    packageContent pkg [] dc = "package " ++ pkg ++ "\n" := by
  show "package " ++ pkg ++ "\n" ++ String.join [] = "package " ++ pkg ++ "\n"
  have : String.join [] = "" := rfl
  rw [this, String.append_empty]

theorem download_svgs_fst (icons : List String) (f : String → Option String) :
    (download_svgs icons f).1 =
      icons.filterMap (fun i => (f i).map (fun s => (i, s))) := by
  induction icons with
  | nil => rfl
  | cons i rest ih =>
    simp only [download_svgs, List.filterMap_cons]
    cases h : f i with
    | none => simpa [h] using ih
    | some svg => simp [h, ih]

theorem download_svgs_snd (icons : List String) (f : String → Option String) :
    (download_svgs icons f).2 = (icons.filter (fun i => (f i).isNone)).length := by
  induction icons with
  | nil => rfl
  | cons i rest ih =>
    simp only [download_svgs, List.filter_cons]
    cases h : f i with
    | none => simp [h, ih]
    | some svg => simp [h, ih]

theorem download_svgs_all_ok (icons : List String) (f : String → Option String)
    (h : ∀ i ∈ icons, (f i).isSome) : (download_svgs icons f).2 = 0 := by
  rw [download_svgs_snd]
  simp only [List.length_eq_zero, List.filter_eq_nil_iff]
  intro i hi
  have := h i hi
  cases hf : f i <;> simp_all

theorem download_svgs_names (icons : List String) (f : String → Option String) :
    (download_svgs icons f).1.map Prod.fst =
      icons.filter (fun i => (f i).isSome) := by
  rw [download_svgs_fst]
  induction icons with
  | nil => rfl
  | cons i rest ih =>
    simp only [List.filterMap_cons, List.filter_cons]
    cases h : f i <;> simp [h, ih]

theorem download_svgs_nil_data (icons : List String) (f : String → Option String)
    (h : (download_svgs icons f).1 = []) :
    (download_svgs icons f).2 = icons.length := by
  rw [download_svgs_fst, List.filterMap_eq_nil_iff] at h
  rw [download_svgs_snd]
  rw [List.filter_length_eq_length]
  intro i hi
  have := h i hi
  cases hf : f i <;> simp_all

theorem runWorld_eq (w : World) (a : Args) :
    runWorld w a =
      runStages a (fetch_heroicons_list w.listFetch w.listCache) (scannedIcons w)
        (download_svgs (scannedIcons w) w.svgFor)
        (generate_heroicons_package a.output_dir
          (download_svgs (scannedIcons w) w.svgFor).1 w.existingOutput
          a.force a.dry_run a.default_class).result
        (generate_heroicons_package a.output_dir
          (download_svgs (scannedIcons w) w.svgFor).1 w.existingOutput
          a.force a.dry_run a.default_class).fsAfter
        w.existingOutput := rfl

theorem runMain_raises (a : Args) (s : StageResults) (fs0 : Option String) (e : PyExc)
    (h : stageRaises a s e) :
    (runMain a s fs0).exitCode = excExitCode e ∧
    (runMain a s fs0).generatedContent = Option.none ∧
    (runMain a s fs0).cancelMsgPrinted = decide (e = PyExc.keyboardInterrupt) := by
  unfold runMain
  rcases h with h | ⟨vl, h1, h2⟩ | ⟨vl, icons, h1, h2, h3⟩ |
    ⟨vl, icons, dl, h1, h2, h3, h4, h5⟩
  · rw [h]; exact ⟨rfl, rfl, rfl⟩
  · rw [h1, h2]; exact ⟨rfl, rfl, rfl⟩
  · rw [h1, h2, h3]; exact ⟨rfl, rfl, rfl⟩
  · rw [h1, h2, h3]
    simp [runStages, h4, h5, errResult]

/-! ## Claims -/

/-- C1: when the scan identified at least one icon, zero icons were
successfully downloaded/processed, and this is not a dry run, the run is
fatal — package generation is skipped (with the skip message) and the exit
code is 1, the output file untouched; whereas a run that identifies zero
icons (with no pre-existing output file) succeeds with exit code 0 and
generation does run. -/
theorem c1_zero_processed_fatal (w : World) (a : Args) (hdry : a.dry_run = false) :
    ((scannedIcons w ≠ [] ∧ (download_svgs (scannedIcons w) w.svgFor).1 = []) →
      (runWorld w a).exitCode = 1 ∧
      (runWorld w a).generationRun = false ∧
      (runWorld w a).skippedGenMsg = true ∧
      (runWorld w a).fsAfter = w.existingOutput) ∧
    ((scannedIcons w = [] ∧ w.existingOutput = Option.none) →
      (runWorld w a).exitCode = 0 ∧
      (runWorld w a).generationRun = true) := by
  constructor
  · rintro ⟨hne, hdata⟩
    have herr : (download_svgs (scannedIcons w) w.svgFor).2 = (scannedIcons w).length :=
      download_svgs_nil_data _ _ hdata
    have hpos : 0 < (scannedIcons w).length := List.length_pos.mpr hne
    have hfatal : fatalNoIcons a (scannedIcons w)
        (download_svgs (scannedIcons w) w.svgFor).1
        (download_svgs (scannedIcons w) w.svgFor).2 = true := by
      rw [fatalNoIcons, hdata, herr, hdry]
      simp [hpos, List.isEmpty_eq_false.mpr hne]
    rw [runWorld_eq]
    simp only [runStages, hfatal]
    simp
  · rintro ⟨hscan, hex⟩
    rw [runWorld_eq, hscan, hex]
    have hdl : download_svgs [] w.svgFor = ([], 0) := rfl
    rw [hdl, hdry]
    simp only [runStages, fatalNoIcons, generate_heroicons_package]
    exact ⟨by simp, by simp⟩

/-- C3: when the scan identifies zero icons and this is not a dry run,
generation still runs, writes a structurally valid empty-package file (the
bare package declaration), and the run exits with code 0. -/
theorem c3_empty_scan_generates (w : World) (a : Args)
    (hscan : scannedIcons w = []) (hdry : a.dry_run = false)
    (hex : w.existingOutput = Option.none) :
    (runWorld w a).exitCode = 0 ∧
    (runWorld w a).generationRun = true ∧
    (runWorld w a).fsAfter =
      Option.some ("package " ++ basename a.output_dir ++ "\n") ∧
    (runWorld w a).generatedContent =
      Option.some ("package " ++ basename a.output_dir ++ "\n") ∧
    validPackageText ("package " ++ basename a.output_dir ++ "\n") = true := by
  rw [runWorld_eq, hscan, hex]
  have hdl : download_svgs [] w.svgFor = ([], 0) := rfl
  rw [hdl, hdry]
  simp only [runStages, fatalNoIcons, generate_heroicons_package, packageContent_nil]
  refine ⟨by simp, by simp, by simp, by simp, ?_⟩
  rw [validPackageText, List.isPrefixOf_iff_prefix]
  rw [String.data_append, String.data_append]
  exact (List.prefix_append _ _).trans (List.prefix_append _ _)

/-- C2: when some icon downloads fail but at least one succeeds (and the
output file does not yet exist, not a dry run), the tool still generates
the package containing exactly the successfully processed subset, prints
the download-errors warning, and exits with code 0. -/
theorem c2_partial_success (w : World) (a : Args)
    (hex : w.existingOutput = Option.none) (hdry : a.dry_run = false)
    (herr : 0 < (download_svgs (scannedIcons w) w.svgFor).2)
    (hdata : (download_svgs (scannedIcons w) w.svgFor).1 ≠ []) :
    (runWorld w a).exitCode = 0 ∧
    (runWorld w a).downloadWarnPrinted = true ∧
    (runWorld w a).generationRun = true ∧
    (runWorld w a).generatedContent =
      Option.some (packageContent (basename a.output_dir)
        ((scannedIcons w).filterMap (fun i => (w.svgFor i).map (fun s => (i, s))))
        a.default_class) ∧
    (runWorld w a).fsAfter =
      Option.some (packageContent (basename a.output_dir)
        ((scannedIcons w).filterMap (fun i => (w.svgFor i).map (fun s => (i, s))))
        a.default_class) := by
  have hfatal : fatalNoIcons a (scannedIcons w)
      (download_svgs (scannedIcons w) w.svgFor).1
      (download_svgs (scannedIcons w) w.svgFor).2 = false := by
    rw [fatalNoIcons]
    simp [List.isEmpty_eq_false.mpr hdata]
  rw [runWorld_eq, hex, hdry, ← download_svgs_fst (scannedIcons w) w.svgFor]
  simp only [runStages, hfatal, generate_heroicons_package]
  simp [herr]

/-- C4: every token found in the scanned files that passes validation
(the valid-icon set is empty, or contains it) occurs exactly once in the
scan result — the scan deduplicates across all occurrences and files —
and, whenever its download succeeds, exactly one component for it is
emitted in the generated output. -/
theorem c4_scan_dedup_exactly_once (files : List (List String)) (valid : List String)
    (t : String) (hmem : t ∈ files.flatten) (hval : valid = [] ∨ t ∈ valid) :
    (find_used_icons files valid).count t = 1 ∧
    (∀ f : String → Option String, (f t).isSome = true →
      (componentNames (download_svgs (find_used_icons files valid) f).1).count t
        = 1) := by
  have hfilter : t ∈ (if valid.isEmpty then files.flatten
      else files.flatten.filter (fun x => valid.contains x)) := by
    rcases hval with h | h
    · subst h; simpa using hmem
    · have hne : valid ≠ [] := by rintro rfl; exact absurd h (List.not_mem_nil t)
      rw [if_neg (by simpa using hne)]
      exact List.mem_filter.mpr ⟨hmem, List.elem_iff.mpr h⟩
  have hcount : (find_used_icons files valid).count t = 1 := by
    rw [find_used_icons]
    rw [List.Perm.count_eq (sortLe_perm strLe _) t, List.count_dedup]
    simp only [hfilter, if_pos]
  refine ⟨hcount, fun f hf => ?_⟩
  have hperm : (componentNames (download_svgs (find_used_icons files valid) f).1).Perm
      ((download_svgs (find_used_icons files valid) f).1.map Prod.fst) := by
    simp only [componentNames, sortIcons]
    exact (sortLe_perm _ _).map _
  have hcf : List.count t
        (List.filter (fun i => (f i).isSome) (find_used_icons files valid))
      = List.count t (find_used_icons files valid) := List.count_filter hf
  rw [List.Perm.count_eq hperm t, download_svgs_names, hcf, hcount]

/-- C5: if the target output file already exists with content byte-identical
to the freshly generated content, `generate_heroicons_package` performs no
write and leaves the file untouched, for every value of the `force` flag
(and whether or not this is a dry run); the returned content is that same
text. -/
theorem c5_identical_content_untouched (output_dir default_class : String)
    (icons : List (String × String)) (force dry_run : Bool) :
    (generate_heroicons_package output_dir icons
        (Option.some (packageContent (basename output_dir) icons default_class))
        force dry_run default_class).fsAfter
      = Option.some (packageContent (basename output_dir) icons default_class) ∧
    (generate_heroicons_package output_dir icons
        (Option.some (packageContent (basename output_dir) icons default_class))
        force dry_run default_class).result
      = Except.ok (packageContent (basename output_dir) icons default_class) := by
  unfold generate_heroicons_package
  cases dry_run <;> simp

/-- C6: if the target output file exists with content different from the
freshly generated content and `force` is false (not a dry run, all
downloads succeeding), generation fails with the file-exists condition —
an `OSError` mapped to exit code 1 — and the existing file content is left
unmodified, with no content returned. -/
theorem c6_conflict_without_force (w : World) (a : Args) (c : String)
    (hex : w.existingOutput = Option.some c)
    (hforce : a.force = false) (hdry : a.dry_run = false)
    (hok : ∀ i ∈ scannedIcons w, (w.svgFor i).isSome)
    (hne : c ≠ packageContent (basename a.output_dir)
      (download_svgs (scannedIcons w) w.svgFor).1 a.default_class) :
    (stagesOf w a).genRes = Except.error PyExc.osError ∧
    (runWorld w a).exitCode = 1 ∧
    (runWorld w a).fsAfter = Option.some c ∧
    (runWorld w a).generatedContent = Option.none := by
  have herr : (download_svgs (scannedIcons w) w.svgFor).2 = 0 :=
    download_svgs_all_ok _ _ hok
  have hfatal : fatalNoIcons a (scannedIcons w)
      (download_svgs (scannedIcons w) w.svgFor).1
      (download_svgs (scannedIcons w) w.svgFor).2 = false := by
    rw [fatalNoIcons, herr]
    simp
  have hgen : generate_heroicons_package a.output_dir
      (download_svgs (scannedIcons w) w.svgFor).1 w.existingOutput
      a.force a.dry_run a.default_class =
      { result := Except.error PyExc.osError, fsAfter := Option.some c } := by
    unfold generate_heroicons_package
    rw [hex, hforce, hdry]
    simp [hne]
  constructor
  · show (generate_heroicons_package a.output_dir
      (download_svgs (scannedIcons w) w.svgFor).1 w.existingOutput
      a.force a.dry_run a.default_class).result = Except.error PyExc.osError
    rw [hgen]
  · rw [runWorld_eq, hgen]
    simp only [runStages, hfatal]
    simp [errResult, excExitCode]

/-- C7: if the icon-list network fetch fails and no cached copy exists, the
fetched list is empty, validation is skipped in the scanner (every
syntactically valid token passes through, only deduplicated and sorted),
the could-not-fetch warning is printed exactly when verbose mode is on,
and the run still exits with code 0 when the per-icon downloads succeed
(no pre-existing output file). -/
theorem c7_list_fetch_failure_nonfatal (w : World) (a : Args)
    (hnf : w.listFetch = Option.none) (hnc : w.listCache = Option.none)
    (hok : ∀ i ∈ scannedIcons w, (w.svgFor i).isSome)
    (hex : w.existingOutput = Option.none) :
    fetch_heroicons_list w.listFetch w.listCache = [] ∧
    scannedIcons w = sortLe strLe (w.fileTokens.flatten).dedup ∧
    (runWorld w a).fetchWarnPrinted = a.verbose ∧
    (runWorld w a).exitCode = 0 := by
  have hfl : fetch_heroicons_list w.listFetch w.listCache = [] := by
    rw [hnf, hnc]; rfl
  have hscan : scannedIcons w = sortLe strLe (w.fileTokens.flatten).dedup := by
    rw [scannedIcons, hfl, find_used_icons]
    simp
  have herr : (download_svgs (scannedIcons w) w.svgFor).2 = 0 :=
    download_svgs_all_ok _ _ hok
  have hfatal : fatalNoIcons a (scannedIcons w)
      (download_svgs (scannedIcons w) w.svgFor).1
      (download_svgs (scannedIcons w) w.svgFor).2 = false := by
    rw [fatalNoIcons, herr]
    simp
  refine ⟨hfl, hscan, ?_, ?_⟩ <;>
  · rw [runWorld_eq, hex]
    simp only [runStages, hfatal, hfl, generate_heroicons_package]
    cases hd : a.dry_run <;> simp

/-- C8: a `KeyboardInterrupt` escaping any pipeline stage makes `main` print
the cancellation message and exit with code 130 with no output generated;
any of the generic caught failures (network, filesystem, OS, runtime,
unexpected) escaping any stage exits with code 1 with no output generated;
a run in which every stage returns normally and the fatal condition does
not fire exits with code 0. -/
theorem c8_exit_code_mapping (a : Args) (s : StageResults) (fs0 : Option String) :
    (∀ e, stageRaises a s e → e = PyExc.keyboardInterrupt →
      (runMain a s fs0).exitCode = 130 ∧
      (runMain a s fs0).cancelMsgPrinted = true ∧
      (runMain a s fs0).generatedContent = Option.none) ∧
    (∀ e, stageRaises a s e → genericFailure e = true →
      (runMain a s fs0).exitCode = 1 ∧
      (runMain a s fs0).generatedContent = Option.none) ∧
    (∀ vl icons dl content, s.fetchRes = Except.ok vl → s.scanRes = Except.ok icons →
      s.downloadRes = Except.ok dl → fatalNoIcons a icons dl.1 dl.2 = false →
      s.genRes = Except.ok content → (runMain a s fs0).exitCode = 0) := by
  refine ⟨?_, ?_, ?_⟩
  · intro e h he
    subst he
    obtain ⟨h1, h2, h3⟩ := runMain_raises a s fs0 _ h
    refine ⟨h1, ?_, h2⟩
    rw [h3]; simp
  · intro e h hg
    obtain ⟨h1, h2, h3⟩ := runMain_raises a s fs0 _ h
    refine ⟨?_, h2⟩
    rw [h1]
    cases e <;> simp_all [genericFailure, excExitCode]
  · intro vl icons dl content h1 h2 h3 hfatal h5
    unfold runMain
    rw [h1, h2, h3]
    simp [runStages, hfatal, h5]

/-- C9: the `--exclude-output` value is parsed case-insensitively: it is
`false` exactly when the supplied string, lowercased, is one of `false`,
`0`, `no`; any other string (such as `banana`) parses as `true`, and the
argparse default is `true`. -/
theorem c9_exclude_output_parsing :
    (∀ x : String, exclude_output_value x = false ↔
      (pyLower x = "false" ∨ pyLower x = "0" ∨ pyLower x = "no")) ∧
    exclude_output_value "banana" = true ∧
    EXCLUDE_OUTPUT_DEFAULT = true := by
  refine ⟨fun x => ?_, by decide, rfl⟩
  simp only [exclude_output_value, List.contains, Bool.not_eq_false', List.elem_iff,
    List.mem_cons, List.mem_singleton, List.not_mem_nil, or_false]

/-- C10: if a `SystemExit` escapes any pipeline stage inside the `try`
block of `main`, the process exit code equals the exception's code when
that code is an integer, and 1 otherwise (code `None` or a string). -/
theorem c10_system_exit_code (a : Args) (s : StageResults) (fs0 : Option String)
    (v : PyVal) (h : stageRaises a s (PyExc.systemExit v)) :
    (∀ n : Int, v = PyVal.int n → (runMain a s fs0).exitCode = n) ∧
    ((∀ n : Int, v ≠ PyVal.int n) → (runMain a s fs0).exitCode = 1) := by
  have hexit := (runMain_raises a s fs0 _ h).1
  constructor
  · intro n hn
    subst hn
    rw [hexit]; rfl
  · intro hn
    rw [hexit]
    cases v with
    | int n => exact absurd rfl (hn n)
    | str t => rfl
    | none => rfl

/-! ## Concrete fixtures and witnesses -/

/-- A representative parsed argument set: defaults, not verbose, not a dry
run. -/
def sampleArgs : Args :=
  { input_dir := "."
    output_dir := "static/heroicons"
    force := false
    exclude_output := true
    verbose := false
    silent := false
    dry_run := false
    default_class := "w-6 h-6"
    cache_dir := ".heroicons_cache" }

/-- `sampleArgs` with verbose mode on. -/
def verboseArgs : Args := { sampleArgs with verbose := true }

theorem c1_zero_processed_fatal_witness :
    (runWorld
      ⟨Option.some ["home"], Option.none, [["home"]], fun _ => Option.none,
        Option.none⟩ sampleArgs).exitCode = 1 ∧
    (runWorld
      ⟨Option.some ["home"], Option.none, [[]], fun _ => Option.none,
        Option.none⟩ sampleArgs).exitCode = 0 :=
  ⟨((c1_zero_processed_fatal
      ⟨Option.some ["home"], Option.none, [["home"]], fun _ => Option.none,
        Option.none⟩ sampleArgs rfl).1 ⟨by decide, by decide⟩).1,
   ((c1_zero_processed_fatal
      ⟨Option.some ["home"], Option.none, [[]], fun _ => Option.none,
        Option.none⟩ sampleArgs rfl).2 ⟨by decide, rfl⟩).1⟩

theorem c2_partial_success_witness :
    (runWorld
      ⟨Option.some ["bell", "home"], Option.none, [["home", "bell", "home"]],
        fun i => if i = "home" then Option.some "<svg>h</svg>" else Option.none,
        Option.none⟩ sampleArgs).exitCode = 0 ∧
    (runWorld
      ⟨Option.some ["bell", "home"], Option.none, [["home", "bell", "home"]],
        fun i => if i = "home" then Option.some "<svg>h</svg>" else Option.none,
        Option.none⟩ sampleArgs).downloadWarnPrinted = true :=
  have h := c2_partial_success
    ⟨Option.some ["bell", "home"], Option.none, [["home", "bell", "home"]],
      fun i => if i = "home" then Option.some "<svg>h</svg>" else Option.none,
      Option.none⟩ sampleArgs rfl rfl (by decide) (by decide)
  ⟨h.1, h.2.1⟩

theorem c3_empty_scan_generates_witness :
    (runWorld
      ⟨Option.some ["home"], Option.none, [["not-an-icon"]],
        fun _ => Option.some "<svg/>", Option.none⟩ sampleArgs).exitCode = 0 ∧
    (runWorld
      ⟨Option.some ["home"], Option.none, [["not-an-icon"]],
        fun _ => Option.some "<svg/>", Option.none⟩ sampleArgs).fsAfter =
      Option.some ("package " ++ basename "static/heroicons" ++ "\n") :=
  have h := c3_empty_scan_generates
    ⟨Option.some ["home"], Option.none, [["not-an-icon"]],
      fun _ => Option.some "<svg/>", Option.none⟩ sampleArgs (by decide) rfl rfl
  ⟨h.1, h.2.2.1⟩

theorem c4_scan_dedup_exactly_once_witness :
    (find_used_icons [["home", "x-mark"], ["home"]] ["home"]).count "home" = 1 ∧
    (componentNames
      (download_svgs (find_used_icons [["home", "x-mark"], ["home"]] ["home"])
        (fun _ => Option.some "<svg/>")).1).count "home" = 1 :=
  have h := c4_scan_dedup_exactly_once [["home", "x-mark"], ["home"]] ["home"]
    "home" (by decide) (Or.inr (by decide))
  ⟨h.1, h.2 (fun _ => Option.some "<svg/>") (by decide)⟩

theorem c6_conflict_without_force_witness :
    (runWorld
      ⟨Option.some ["home"], Option.none, [["home"]],
        fun _ => Option.some "<svg/>", Option.some "old content"⟩
      sampleArgs).exitCode = 1 ∧
    (runWorld
      ⟨Option.some ["home"], Option.none, [["home"]],
        fun _ => Option.some "<svg/>", Option.some "old content"⟩
      sampleArgs).fsAfter = Option.some "old content" :=
  have h := c6_conflict_without_force
    ⟨Option.some ["home"], Option.none, [["home"]],
      fun _ => Option.some "<svg/>", Option.some "old content"⟩
    sampleArgs "old content" rfl rfl rfl (by decide) (by decide)
  ⟨h.2.1, h.2.2.1⟩

theorem c7_list_fetch_failure_nonfatal_witness :
    (runWorld
      ⟨Option.none, Option.none, [["zeta", "alpha"]],
        fun _ => Option.some "<svg/>", Option.none⟩ verboseArgs).fetchWarnPrinted
      = true ∧
    (runWorld
      ⟨Option.none, Option.none, [["zeta", "alpha"]],
        fun _ => Option.some "<svg/>", Option.none⟩ verboseArgs).exitCode = 0 :=
  have h := c7_list_fetch_failure_nonfatal
    ⟨Option.none, Option.none, [["zeta", "alpha"]],
      fun _ => Option.some "<svg/>", Option.none⟩ verboseArgs rfl rfl
    (by decide) rfl
  ⟨h.2.2.1, h.2.2.2⟩

theorem c8_exit_code_mapping_witness :
    (runMain sampleArgs
      ⟨Except.error PyExc.keyboardInterrupt, Except.ok [], Except.ok ([], 0),
        Except.ok "", Option.none⟩ Option.none).exitCode = 130 ∧
    (runMain sampleArgs
      ⟨Except.error PyExc.osError, Except.ok [], Except.ok ([], 0),
        Except.ok "", Option.none⟩ Option.none).exitCode = 1 ∧
    (runMain sampleArgs
      ⟨Except.ok [], Except.ok [], Except.ok ([], 0),
        Except.ok "", Option.none⟩ Option.none).exitCode = 0 :=
  ⟨((c8_exit_code_mapping sampleArgs
      ⟨Except.error PyExc.keyboardInterrupt, Except.ok [], Except.ok ([], 0),
        Except.ok "", Option.none⟩ Option.none).1
      PyExc.keyboardInterrupt (Or.inl rfl) rfl).1,
   ((c8_exit_code_mapping sampleArgs
      ⟨Except.error PyExc.osError, Except.ok [], Except.ok ([], 0),
        Except.ok "", Option.none⟩ Option.none).2.1
      PyExc.osError (Or.inl rfl) rfl).1,
   (c8_exit_code_mapping sampleArgs
      ⟨Except.ok [], Except.ok [], Except.ok ([], 0),
        Except.ok "", Option.none⟩ Option.none).2.2
      [] [] ([], 0) "" rfl rfl rfl (by decide) rfl⟩

theorem c9_exclude_output_parsing_witness :
    exclude_output_value "No" = false ∧ exclude_output_value "banana" = true :=
  ⟨(c9_exclude_output_parsing.1 "No").mpr (Or.inr (Or.inr (by decide))),
   c9_exclude_output_parsing.2.1⟩

theorem c10_system_exit_code_witness :
    (runMain sampleArgs
      ⟨Except.error (PyExc.systemExit (PyVal.int 7)), Except.ok [],
        Except.ok ([], 0), Except.ok "", Option.none⟩ Option.none).exitCode = 7 ∧
    (runMain sampleArgs
      ⟨Except.error (PyExc.systemExit (PyVal.str "boom")), Except.ok [],
        Except.ok ([], 0), Except.ok "", Option.none⟩ Option.none).exitCode = 1 :=
  ⟨(c10_system_exit_code sampleArgs
      ⟨Except.error (PyExc.systemExit (PyVal.int 7)), Except.ok [],
        Except.ok ([], 0), Except.ok "", Option.none⟩ Option.none
      (PyVal.int 7) (Or.inl rfl)).1 7 rfl,
   (c10_system_exit_code sampleArgs
      ⟨Except.error (PyExc.systemExit (PyVal.str "boom")), Except.ok [],
        Except.ok ([], 0), Except.ok "", Option.none⟩ Option.none
      (PyVal.str "boom") (Or.inl rfl)).2
      (fun _ h => PyVal.noConfusion h)⟩

end Heroicons
